import Mathlib

/-!
Verification of the wishbone-utils etherbone codec, register adapter,
debug-bus bridge and relay server, shallowly embedded from the C sources
(`etherbone.c` and the VexRiscv debug relay).  Machine integers are
modelled as `Nat` with explicit `% 2^w` where the C types force wraparound.
The embedding assumes a little-endian host, the configuration the
byte-order conditionals of the source are written for.
-/

namespace WishboneUtils

/-- Big-endian byte serialisation of the low 32 bits of `x`, as done by
`htobe32` followed by `memcpy` into four consecutive buffer bytes. -/
def beBytes32 (x : Nat) : List Nat :=
  [x / 2 ^ 24 % 256, x / 2 ^ 16 % 256, x / 2 ^ 8 % 256, x % 256]

/-- Store the low 32 bits of `w` big-endian at offsets `o, o+1, o+2, o+3`
of buffer `b` (the `memcpy(&buf[o], &htobe32(w), 4)` idiom). -/
def set4be (b : List Nat) (o : Nat) (w : Nat) : List Nat :=
  (((b.set o (w / 2 ^ 24 % 256)).set (o + 1) (w / 2 ^ 16 % 256)).set
      (o + 2) (w / 2 ^ 8 % 256)).set (o + 3) (w % 256)

/-- Embedding of `eb_unfill_read32` from `etherbone.c`: recover the
big-endian 32-bit value stored at offsets 16..19 of a reply buffer. -/
def eb_unfill_read32 (buf : List Nat) : Nat :=
  buf.getD 16 0 * 2 ^ 24 + buf.getD 17 0 * 2 ^ 16 + buf.getD 18 0 * 2 ^ 8 +
    buf.getD 19 0

/-- Embedding of `eb_fill_readwrite32` from `etherbone.c`: fill a caller
supplied 20-byte buffer with a single-record etherbone packet.  A read
carries the address in the value field (offsets 16..19) and leaves
offsets 12..15 untouched; a write stores the address at 12..15 and the
data at 16..19, both big-endian. -/
def eb_fill_readwrite32 (buf : List Nat) (address data : Nat)
    (is_read : Bool) : List Nat :=
  let b :=
    (((((((((buf.set 0 0x4e).set 1 0x6f).set 2 0x10).set 3 0x44).set 4 0).set
          5 0).set 6 0).set 7 0).set 8 0).set 9 0x0f
  if is_read then
    set4be ((b.set 10 0).set 11 1) 16 address
  else
    set4be (set4be ((b.set 10 1).set 11 0) 12 address) 16 data

/-- Embedding of `eb_fill_write32`: a write packet. -/
def eb_fill_write32 (buf : List Nat) (address data : Nat) : List Nat :=
  eb_fill_readwrite32 buf address data false

/-- Embedding of `eb_fill_read32`: a read packet (data argument 0). -/
def eb_fill_read32 (buf : List Nat) (address : Nat) : List Nat :=
  eb_fill_readwrite32 buf address 0 true

/-- The protocol error taxonomy of the reply decoder. -/
inductive ProtocolError
  | UnexpectedLength
  deriving DecidableEq, Repr

/-- Length-checked reply decode: the `count != sizeof(raw_pkt)` guard of
`wb_read32` combined with `eb_unfill_read32`.  Fails exactly when the
buffer is not 20 bytes long. -/
def decode_reply (buf : List Nat) : Except ProtocolError Nat :=
  if buf.length = 20 then .ok (eb_unfill_read32 buf)
  else .error .UnexpectedLength

/-- Result of handling one received reply in `wb_read32`: the value the
call returns and whether the unexpected-length path was taken. -/
structure ReadReply where
  value : Nat
  lengthError : Bool
  deriving DecidableEq, Repr

/-- Embedding of the receive tail of `wb_read32`: a reply whose byte
count differs from 20 is logged and the call returns `(uint32_t)-1`
(all ones); otherwise the big-endian value field is returned. -/
def wb_read32_handle_recv (count : Nat) (buf : List Nat) : ReadReply :=
  if count ≠ 20 then { value := 2 ^ 32 - 1, lengthError := true }
  else { value := eb_unfill_read32 buf, lengthError := false }

/-- C1: the encoder lays out a 20-byte packet exactly as specified. -/
theorem eb_fill_layout (buf : List Nat) (h : buf.length = 20) (a v : Nat) :
    eb_fill_readwrite32 buf a v false =
      [0x4e, 0x6f, 0x10, 0x44, 0, 0, 0, 0, 0, 0x0f, 1, 0] ++
        beBytes32 a ++ beBytes32 v ∧
    (eb_fill_readwrite32 buf a v true).length = 20 ∧
    (eb_fill_readwrite32 buf a v true).take 12 =
      [0x4e, 0x6f, 0x10, 0x44, 0, 0, 0, 0, 0, 0x0f, 0, 1] ∧
    (eb_fill_readwrite32 buf a v true).drop 16 = beBytes32 a := by
  match buf, h with
  | [b0, b1, b2, b3, b4, b5, b6, b7, b8, b9, b10, b11, b12, b13, b14, b15,
      b16, b17, b18, b19], _ =>
    refine ⟨?_, ?_, ?_, ?_⟩ <;>
      simp [eb_fill_readwrite32, set4be, beBytes32]

/-- Witness for `eb_fill_layout` at a concrete buffer, address and value. -/
theorem eb_fill_layout_witness :
    eb_fill_readwrite32 (List.replicate 20 0) 0xe0005800 0x12345678 false =
      [0x4e, 0x6f, 0x10, 0x44, 0, 0, 0, 0, 0, 0x0f, 1, 0] ++
        beBytes32 0xe0005800 ++ beBytes32 0x12345678 :=
  (eb_fill_layout (List.replicate 20 0) (by decide) 0xe0005800 0x12345678).1

/-- C2: a read encoding carries the requested address big-endian in the
value field (offsets 16..19); `decode_reply` on any 20-byte buffer
returns the big-endian 32-bit integer at offsets 16..19; hence decoding
an encoded read recovers the address. -/
theorem decode_encode_read (buf : List Nat) (h : buf.length = 20)
    (a d : Nat) (ha : a < 2 ^ 32) :
    (eb_fill_readwrite32 buf a d true).drop 16 = beBytes32 a ∧
    (∀ b : List Nat, b.length = 20 →
      decode_reply b =
        .ok (b.getD 16 0 * 2 ^ 24 + b.getD 17 0 * 2 ^ 16 +
              b.getD 18 0 * 2 ^ 8 + b.getD 19 0)) ∧
    decode_reply (eb_fill_readwrite32 buf a d true) = .ok a := by
  refine ⟨(eb_fill_layout buf h a d).2.2.2, ?_, ?_⟩
  · intro b hb
    simp [decode_reply, hb, eb_unfill_read32]
  · match buf, h with
    | [b0, b1, b2, b3, b4, b5, b6, b7, b8, b9, b10, b11, b12, b13, b14, b15,
        b16, b17, b18, b19], _ =>
      simp only [decode_reply, eb_fill_readwrite32, set4be, eb_unfill_read32]
      norm_num
      omega

/-- Witness for `decode_encode_read` at a concrete address. -/
theorem decode_encode_read_witness :
    decode_reply (eb_fill_readwrite32 (List.replicate 20 0) 0xe0005800 0 true) =
      .ok 0xe0005800 :=
  (decode_encode_read (List.replicate 20 0) (by decide) 0xe0005800 0
    (by decide)).2.2

/-- C4: `decode_reply` fails with `UnexpectedLength` exactly when the
input is not 20 bytes; the receive tail of `wb_read32` reports the error
non-fatally and returns the all-ones value on a wrong byte count, and
decodes the value field on a 20-byte reply. -/
theorem decode_reply_unexpected_length (buf : List Nat) (count : Nat)
    (reply : List Nat) :
    (decode_reply buf = .error .UnexpectedLength ↔ buf.length ≠ 20) ∧
    (count ≠ 20 →
      wb_read32_handle_recv count reply =
        { value := 2 ^ 32 - 1, lengthError := true }) ∧
    wb_read32_handle_recv 20 reply =
      { value := eb_unfill_read32 reply, lengthError := false } := by
  refine ⟨?_, ?_, ?_⟩
  · unfold decode_reply
    split <;> simp_all
  · intro hc
    simp [wb_read32_handle_recv, hc]
  · simp [wb_read32_handle_recv]

/-- Witness for `decode_reply_unexpected_length` on a 7-byte reply. -/
theorem decode_reply_unexpected_length_witness :
    decode_reply [1, 2, 3] = .error .UnexpectedLength ∧
    wb_read32_handle_recv 7 [1, 2, 3, 4, 5, 6, 7] =
      { value := 2 ^ 32 - 1, lengthError := true } :=
  ⟨(decode_reply_unexpected_length [1, 2, 3] 7 [1, 2, 3, 4, 5, 6, 7]).1.mpr
      (by decide),
    (decode_reply_unexpected_length [1, 2, 3] 7 [1, 2, 3, 4, 5, 6, 7]).2.1
      (by decide)⟩

/-- A single native bus transaction issued towards the etherbone link. -/
inductive Tx
  | write8 (addr val : Nat)
  | read8 (addr : Nat)
  | write32 (addr val : Nat)
  | read32 (addr : Nat)
  deriving DecidableEq, Repr

/-- Effect of a transaction list on an echoing responder: a write stores
its value at its address, reads leave the memory unchanged. -/
def applyTxs (mem : Nat → Nat) : List Tx → (Nat → Nat)
  | [] => mem
  | Tx.write8 a v :: rest =>
      applyTxs (fun x => if x = a then v else mem x) rest
  | Tx.write32 a v :: rest =>
      applyTxs (fun x => if x = a then v else mem x) rest
  | Tx.read8 _ :: rest => applyTxs mem rest
  | Tx.read32 _ :: rest => applyTxs mem rest

/-! Byte-native register adapter (`WISHBONE_WIDTH == 8` build of the
relay source). -/

namespace Wb8

/-- Embedding of byte-native `wb_write8`: one byte-wide write; the
`uint32_t` address and `uint8_t` value parameters truncate. -/
def wb_write8_ops (addr val : Nat) : List Tx :=
  [Tx.write8 (addr % 2 ^ 32) (val % 2 ^ 8)]

/-- Embedding of byte-native `wb_read8`: one byte-wide read. -/
def wb_read8_ops (addr : Nat) : List Tx :=
  [Tx.read8 (addr % 2 ^ 32)]

/-- Value `wb_read8` returns against memory `mem`: the responder echoes
the byte stored at the address (`be32toh(value) & 0xff`). -/
def wb_read8_val (mem : Nat → Nat) (addr : Nat) : Nat :=
  mem (addr % 2 ^ 32) % 2 ^ 8

/-- Embedding of byte-native `wb_write32`: after `htole32` (the identity
on a little-endian host) the loop issues
`wb_write8(addr + i*4, val >> ((3-i)*8))` for `i = 0..3`. -/
def wb_write32_ops (addr val : Nat) : List Tx :=
  ((List.range 4).map fun i =>
    wb_write8_ops (addr + i * 4) (val % 2 ^ 32 / 2 ^ ((3 - i) * 8))).flatten

/-- Transactions of byte-native `wb_read32`: four byte reads at stride 4. -/
def wb_read32_ops (addr : Nat) : List Tx :=
  ((List.range 4).map fun i => wb_read8_ops (addr + i * 4)).flatten

/-- Value byte-native `wb_read32` assembles:
`val |= wb_read8(addr + i*4) << ((3-i)*8)` for `i = 0..3`, then
`le32toh` (the identity on a little-endian host). -/
def wb_read32_val (mem : Nat → Nat) (addr : Nat) : Nat :=
  (List.range 4).foldl
    (fun val i => val ||| wb_read8_val mem (addr + i * 4) <<< ((3 - i) * 8)) 0

/-- Embedding of byte-native `wb_write64`: eight byte-wide writes. -/
def wb_write64_ops (addr val : Nat) : List Tx :=
  ((List.range 8).map fun i =>
    wb_write8_ops (addr + i * 4) (val % 2 ^ 64 / 2 ^ ((7 - i) * 8))).flatten

/-- Transactions of byte-native `wb_read64`: eight byte reads at stride 4. -/
def wb_read64_ops (addr : Nat) : List Tx :=
  ((List.range 8).map fun i => wb_read8_ops (addr + i * 4)).flatten

/-- Disjoint byte fields combined with `|||` add up. -/
theorem or_bytes (x0 x1 x2 x3 : Nat) (h1 : x1 < 2 ^ 8) (h2 : x2 < 2 ^ 8)
    (h3 : x3 < 2 ^ 8) :
    x0 * 2 ^ 24 ||| x1 * 2 ^ 16 ||| x2 * 2 ^ 8 ||| x3 =
      x0 * 2 ^ 24 + x1 * 2 ^ 16 + x2 * 2 ^ 8 + x3 := by
  rw [show x0 * 2 ^ 24 = 2 ^ 24 * x0 from Nat.mul_comm _ _,
    ← Nat.mul_add_lt_is_or (show x1 * 2 ^ 16 < 2 ^ 24 by omega) x0]
  rw [show 2 ^ 24 * x0 + x1 * 2 ^ 16 = 2 ^ 16 * (2 ^ 8 * x0 + x1) by ring,
    ← Nat.mul_add_lt_is_or (show x2 * 2 ^ 8 < 2 ^ 16 by omega) (2 ^ 8 * x0 + x1)]
  rw [show 2 ^ 16 * (2 ^ 8 * x0 + x1) + x2 * 2 ^ 8 =
      2 ^ 8 * (2 ^ 16 * x0 + 2 ^ 8 * x1 + x2) by ring,
    ← Nat.mul_add_lt_is_or h3 (2 ^ 16 * x0 + 2 ^ 8 * x1 + x2)]

/-- The assembled 32-bit read value as a plain big-endian byte sum. -/
theorem wb_read32_val_eq (mem : Nat → Nat) (addr : Nat) :
    wb_read32_val mem addr =
      wb_read8_val mem addr * 2 ^ 24 + wb_read8_val mem (addr + 4) * 2 ^ 16 +
        wb_read8_val mem (addr + 8) * 2 ^ 8 + wb_read8_val mem (addr + 12) := by
  have h4 : List.range 4 = [0, 1, 2, 3] := rfl
  simp only [wb_read32_val, h4, List.foldl, Nat.shiftLeft_eq, Nat.zero_or]
  norm_num
  exact or_bytes _ _ _ _ (Nat.mod_lt _ (by decide)) (Nat.mod_lt _ (by decide))
    (Nat.mod_lt _ (by decide))

/-- C3 (amended): byte-native `wb_write32` issues exactly four byte-wide
writes at `addr, addr+4, addr+8, addr+12` carrying the bytes of the value
most-significant first (big-endian order, not little-endian);
`wb_read32` reads the same four addresses in the same order and
reassembles them in the same big-endian order, so a write followed by a
read against an echoing responder returns the value; a 64-bit access is
eight byte-wide operations. -/
theorem wb8_write32_read32_round_trip (addr val : Nat) (mem : Nat → Nat) :
    wb_write32_ops addr val =
      [Tx.write8 (addr % 2 ^ 32) (val % 2 ^ 32 / 2 ^ 24 % 2 ^ 8),
       Tx.write8 ((addr + 4) % 2 ^ 32) (val % 2 ^ 32 / 2 ^ 16 % 2 ^ 8),
       Tx.write8 ((addr + 8) % 2 ^ 32) (val % 2 ^ 32 / 2 ^ 8 % 2 ^ 8),
       Tx.write8 ((addr + 12) % 2 ^ 32) (val % 2 ^ 32 % 2 ^ 8)] ∧
    wb_read32_ops addr =
      [Tx.read8 (addr % 2 ^ 32), Tx.read8 ((addr + 4) % 2 ^ 32),
       Tx.read8 ((addr + 8) % 2 ^ 32), Tx.read8 ((addr + 12) % 2 ^ 32)] ∧
    wb_read32_val (applyTxs mem (wb_write32_ops addr val)) addr =
      val % 2 ^ 32 ∧
    (wb_write64_ops addr val).length = 8 ∧
    (wb_read64_ops addr).length = 8 := by
  have hw : wb_write32_ops addr val =
      [Tx.write8 (addr % 2 ^ 32) (val % 2 ^ 32 / 2 ^ 24 % 2 ^ 8),
       Tx.write8 ((addr + 4) % 2 ^ 32) (val % 2 ^ 32 / 2 ^ 16 % 2 ^ 8),
       Tx.write8 ((addr + 8) % 2 ^ 32) (val % 2 ^ 32 / 2 ^ 8 % 2 ^ 8),
       Tx.write8 ((addr + 12) % 2 ^ 32) (val % 2 ^ 32 % 2 ^ 8)] := by
    simp [wb_write32_ops, wb_write8_ops,
      show List.range 4 = [0, 1, 2, 3] from rfl]
  refine ⟨hw, ?_, ?_, ?_, ?_⟩
  · simp [wb_read32_ops, wb_read8_ops,
      show List.range 4 = [0, 1, 2, 3] from rfl]
  · have e01 : ¬ (addr % 2 ^ 32 = (addr + 4) % 2 ^ 32) := by omega
    have e02 : ¬ (addr % 2 ^ 32 = (addr + 8) % 2 ^ 32) := by omega
    have e03 : ¬ (addr % 2 ^ 32 = (addr + 12) % 2 ^ 32) := by omega
    have e12 : ¬ ((addr + 4) % 2 ^ 32 = (addr + 8) % 2 ^ 32) := by omega
    have e13 : ¬ ((addr + 4) % 2 ^ 32 = (addr + 12) % 2 ^ 32) := by omega
    have e23 : ¬ ((addr + 8) % 2 ^ 32 = (addr + 12) % 2 ^ 32) := by omega
    rw [hw]
    simp only [applyTxs]
    rw [wb_read32_val_eq]
    simp only [wb_read8_val, e01, e02, e03, e12, e13, e23, if_false,
      if_true, eq_self_iff_true, ite_true, ite_false]
    omega
  · simp [wb_write64_ops, wb_write8_ops,
      show List.range 8 = [0, 1, 2, 3, 4, 5, 6, 7] from rfl]
  · simp [wb_read64_ops, wb_read8_ops,
      show List.range 8 = [0, 1, 2, 3, 4, 5, 6, 7] from rfl]

/-- C3 counterexample: the claim says byte-native `wb_write32` sends the
bytes of the value least-significant first (the byte at `A + 4*i` being
byte `i` of `V`).  At `A = 0`, `V = 0x12345678` the code sends `0x12`,
the most significant byte, at `A`, and `0x78` at `A + 12`: the order is
big-endian, so the claimed transaction list is not produced. -/
theorem wb8_write32_not_little_endian :
    wb_write32_ops 0 0x12345678 ≠
      [Tx.write8 0 0x78, Tx.write8 4 0x56, Tx.write8 8 0x34,
       Tx.write8 12 0x12] := by decide

end Wb8

/-! Word-native register adapter (`WISHBONE_WIDTH == 32` build of the
relay source). -/

namespace Wb32

/-- Embedding of word-native `wb_write32`: one native 32-bit write. -/
def wb_write32_ops (addr val : Nat) : List Tx :=
  [Tx.write32 (addr % 2 ^ 32) (val % 2 ^ 32)]

/-- Embedding of word-native `wb_write16`: `wb_write32(addr, val & 0xffff)`
with a `uint16_t` argument, i.e. one full-width write of the
zero-extended narrow value. -/
def wb_write16_ops (addr val : Nat) : List Tx :=
  wb_write32_ops addr (val % 2 ^ 16)

/-- Embedding of word-native `wb_write8`: `wb_write32(addr, val & 0xff)`
with a `uint8_t` argument. -/
def wb_write8_ops (addr val : Nat) : List Tx :=
  wb_write32_ops addr (val % 2 ^ 8)

/-- Transactions of word-native `wb_read32`: one native 32-bit read. -/
def wb_read32_ops (addr : Nat) : List Tx :=
  [Tx.read32 (addr % 2 ^ 32)]

/-- Value word-native `wb_read32` returns against word memory `mem`. -/
def wb_read32_val (mem : Nat → Nat) (addr : Nat) : Nat :=
  mem (addr % 2 ^ 32) % 2 ^ 32

/-- Embedding of word-native `wb_read16`: `wb_read32(addr) & 0xffff`. -/
def wb_read16_val (mem : Nat → Nat) (addr : Nat) : Nat :=
  wb_read32_val mem addr % 2 ^ 16

/-- Embedding of word-native `wb_read8`: `wb_read32(addr) & 0xff`. -/
def wb_read8_val (mem : Nat → Nat) (addr : Nat) : Nat :=
  wb_read32_val mem addr % 2 ^ 8

/-- C9: in word-native mode a narrow write is one full 32-bit write of
the zero-extended narrow value with no preceding read (no
read-modify-write), so it overwrites the whole register — after a narrow
write the full register holds only the narrow value; a narrow read is
the low 8/16 bits of a full 32-bit read. -/
theorem wb32_narrow_access (addr v : Nat) (mem : Nat → Nat) :
    wb_write8_ops addr v = [Tx.write32 (addr % 2 ^ 32) (v % 2 ^ 8)] ∧
    wb_write16_ops addr v = [Tx.write32 (addr % 2 ^ 32) (v % 2 ^ 16)] ∧
    wb_read8_val mem addr = wb_read32_val mem addr % 2 ^ 8 ∧
    wb_read16_val mem addr = wb_read32_val mem addr % 2 ^ 16 ∧
    wb_read32_val (applyTxs mem (wb_write8_ops addr v)) addr = v % 2 ^ 8 ∧
    wb_read32_val (applyTxs mem (wb_write16_ops addr v)) addr = v % 2 ^ 16 := by
  refine ⟨?_, ?_, rfl, rfl, ?_, ?_⟩
  · simp [wb_write8_ops, wb_write32_ops]
    omega
  · simp [wb_write16_ops, wb_write32_ops]
    omega
  · simp [wb_write8_ops, wb_write32_ops, applyTxs, wb_read32_val]
    omega
  · simp [wb_write16_ops, wb_write32_ops, applyTxs, wb_read32_val]
    omega

end Wb32

/-! Debug-bus bridge (`riscv_debug_*` of the relay source).  The CSR
addresses come from the external build-time register map, so they are
carried as parameters. -/

/-- The symbolic CSR addresses the bridge uses
(`CSR_CPU_OR_BRIDGE_DEBUG_{PACKET_COUNTER, CORE, DATA, SYNC}`). -/
structure CsrMap where
  counter : Nat
  core : Nat
  data : Nat
  sync : Nat
  deriving DecidableEq, Repr

/-- 32-bit wraparound difference `x - y` as computed on `uint32_t`. -/
def sub32 (x y : Nat) : Nat := (x % 2 ^ 32 + 2 ^ 32 - y % 2 ^ 32) % 2 ^ 32

/-- Transactions of `riscv_debug_counter`: one 32-bit read of the packet
counter CSR. -/
def riscv_debug_counter_ops (csr : CsrMap) : List Tx := [Tx.read32 csr.counter]

/-- Result of one `riscv_debug_write32` call: warnings printed, the
counter value stored into the connection, and the bus transactions
issued. -/
structure DebugWriteResult where
  warnings : Nat
  storedCounter : Nat
  busOps : List Tx
  deriving DecidableEq, Repr

/-- Embedding of `riscv_debug_write32`: read the hardware counter
(`counterRead` is the value that read returns), warn when it did not
advance by exactly one over the stored counter `last`, store it, and
write the value to the backing CORE (addr 0) or DATA (addr 4) register.
Any other register is fatal (`exit(1)`), modelled as `none`. -/
def riscv_debug_write32 (csr : CsrMap) (counterRead last addr value : Nat) :
    Option DebugWriteResult :=
  if addr = 0 then
    some { warnings := if sub32 counterRead last ≠ 1 then 1 else 0
           storedCounter := counterRead % 2 ^ 32
           busOps := riscv_debug_counter_ops csr ++
             [Tx.write32 csr.core (value % 2 ^ 32)] }
  else if addr = 4 then
    some { warnings := if sub32 counterRead last ≠ 1 then 1 else 0
           storedCounter := counterRead % 2 ^ 32
           busOps := riscv_debug_counter_ops csr ++
             [Tx.write32 csr.data (value % 2 ^ 32)] }
  else none

/-- Fold `riscv_debug_write32` (to CORE, value 0) over a sequence of
hardware counter readings, returning the final stored counter and the
total number of warnings. -/
def debugWriteRun (csr : CsrMap) (last : Nat) : List Nat → Nat × Nat
  | [] => (last, 0)
  | c :: cs =>
    match riscv_debug_write32 csr c last 0 0 with
    | some r =>
      let rest := debugWriteRun csr r.storedCounter cs
      (rest.1, r.warnings + rest.2)
    | none => (last, 0)

/-- Successive 32-bit counter deltas along a sequence of readings. -/
def deltaList (last : Nat) : List Nat → List Nat
  | [] => []
  | c :: cs => sub32 c last :: deltaList (c % 2 ^ 32) cs

/-- The run warns once per delta different from 1 and ends with the last
reading stored. -/
theorem debugWriteRun_eq (csr : CsrMap) (last : Nat) (cs : List Nat) :
    (debugWriteRun csr last cs).2 =
      (deltaList last cs).countP (fun d => d ≠ 1) ∧
    (debugWriteRun csr last cs).1 =
      (cs.map (fun c => c % 2 ^ 32)).getLastD last := by
  induction cs generalizing last with
  | nil => simp [debugWriteRun, deltaList]
  | cons c cs ih =>
    have hstep : debugWriteRun csr last (c :: cs) =
        ((debugWriteRun csr (c % 2 ^ 32) cs).1,
          (if sub32 c last ≠ 1 then 1 else 0) +
            (debugWriteRun csr (c % 2 ^ 32) cs).2) := rfl
    rw [hstep]
    simp only [deltaList, List.countP_cons, List.map_cons, List.getLastD_cons]
    refine ⟨?_, (ih (c % 2 ^ 32)).2⟩
    rw [(ih (c % 2 ^ 32)).1]
    by_cases h : sub32 c last = 1 <;> simp [h]
    omega

/-- C5: a debug write to CORE (0) or DATA (4) reads the hardware counter
and writes the value to the backing register; exactly one warning is
emitted when the 32-bit counter delta differs from 1 and none when it is
exactly 1, and the stored counter becomes the new reading in every case;
over a sequence, deltas all equal to 1 give zero warnings, and exactly
one off-by-one delta gives exactly one warning with the stored counter
ending at the post-skip reading. -/
theorem riscv_debug_write32_spec (csr : CsrMap) (counterRead last value : Nat)
    (cs : List Nat) :
    riscv_debug_write32 csr counterRead last 0 value =
      some { warnings := if sub32 counterRead last ≠ 1 then 1 else 0
             storedCounter := counterRead % 2 ^ 32
             busOps := [Tx.read32 csr.counter,
               Tx.write32 csr.core (value % 2 ^ 32)] } ∧
    riscv_debug_write32 csr counterRead last 4 value =
      some { warnings := if sub32 counterRead last ≠ 1 then 1 else 0
             storedCounter := counterRead % 2 ^ 32
             busOps := [Tx.read32 csr.counter,
               Tx.write32 csr.data (value % 2 ^ 32)] } ∧
    (∀ reg, reg ≠ 0 → reg ≠ 4 →
      riscv_debug_write32 csr counterRead last reg value = none) ∧
    ((∀ d ∈ deltaList last cs, d = 1) → (debugWriteRun csr last cs).2 = 0) ∧
    ((deltaList last cs).countP (fun d => d ≠ 1) = 1 →
      (debugWriteRun csr last cs).2 = 1) ∧
    (debugWriteRun csr last cs).1 =
      (cs.map (fun c => c % 2 ^ 32)).getLastD last := by
  refine ⟨rfl, rfl, ?_, ?_, ?_, (debugWriteRun_eq csr last cs).2⟩
  · intro reg h0 h4
    simp [riscv_debug_write32, h0, h4]
  · intro hall
    rw [(debugWriteRun_eq csr last cs).1]
    rw [List.countP_eq_zero]
    intro d hd
    simp [hall d hd]
  · intro hone
    rw [(debugWriteRun_eq csr last cs).1, hone]

/-- Witness for `riscv_debug_write32_spec`: an incrementing counter
sequence yields no warning; a sequence with one skipped packet yields
exactly one warning and stores the post-skip counter. -/
theorem riscv_debug_write32_spec_witness :
    (debugWriteRun ⟨1, 2, 3, 4⟩ 5 [6, 7, 8]).2 = 0 ∧
    (debugWriteRun ⟨1, 2, 3, 4⟩ 5 [6, 8]).2 = 1 ∧
    (debugWriteRun ⟨1, 2, 3, 4⟩ 5 [6, 8]).1 = 8 :=
  ⟨(riscv_debug_write32_spec ⟨1, 2, 3, 4⟩ 0 5 0 [6, 7, 8]).2.2.2.1
      (by decide),
    (riscv_debug_write32_spec ⟨1, 2, 3, 4⟩ 0 5 0 [6, 8]).2.2.2.2.1
      (by decide),
    (riscv_debug_write32_spec ⟨1, 2, 3, 4⟩ 0 5 0 [6, 8]).2.2.2.2.2⟩

/-- Counter value stored by `wb_connect`: the connect-time hardware
counter reading minus one, in 32-bit arithmetic. -/
def wb_connect_counter_seed (c0 : Nat) : Nat := sub32 c0 1

/-- Bus transactions `wb_connect` issues against the bridge: the single
throwaway read of the packet counter. -/
def wb_connect_ops (csr : CsrMap) : List Tx := riscv_debug_counter_ops csr

/-- C10: connect performs exactly one throwaway counter read and seeds
the stored counter to that value minus one, so a first debug write that
observes the same hardware counter value sees a delta of exactly 1 and
warns zero times. -/
theorem wb_connect_seed_spec (csr : CsrMap) (c0 value : Nat) :
    wb_connect_ops csr = [Tx.read32 csr.counter] ∧
    wb_connect_counter_seed c0 = sub32 c0 1 ∧
    sub32 c0 (wb_connect_counter_seed c0) = 1 ∧
    riscv_debug_write32 csr c0 (wb_connect_counter_seed c0) 0 value =
      some { warnings := 0
             storedCounter := c0 % 2 ^ 32
             busOps := [Tx.read32 csr.counter,
               Tx.write32 csr.core (value % 2 ^ 32)] } := by
  have hdelta : sub32 c0 (wb_connect_counter_seed c0) = 1 := by
    simp only [wb_connect_counter_seed, sub32]
    omega
  refine ⟨rfl, rfl, hdelta, ?_⟩
  simp [riscv_debug_write32, riscv_debug_counter_ops, hdelta]

/-- Busy-poll of the packet counter inside `riscv_debug_read32`: keep
reading (`stream k` is the value of the k-th read) until a value differs
from `c0`.  The C loop is unbounded; `fuel` bounds how many iterations
are modelled, and exhausting it stands for not having returned yet. -/
def pollCounter (stream : Nat → Nat) (c0 : Nat) : Nat → Nat → Option Nat
  | 0, _ => none
  | fuel + 1, k =>
    if stream k % 2 ^ 32 = c0 then pollCounter stream c0 fuel (k + 1)
    else some k

/-- Result of one completed `riscv_debug_read32` call. -/
structure DebugReadResult where
  value : Nat
  warnings : Nat
  storedCounter : Nat
  pollIndex : Nat
  busOps : List Tx
  deriving DecidableEq, Repr

/-- How a `riscv_debug_read32` call ends: fatal bad register, still
busy-polling after `fuel` counter reads, or completed. -/
inductive DebugReadOutcome
  | badReg
  | stalled
  | done (r : DebugReadResult)
  deriving DecidableEq, Repr

/-- Embedding of `riscv_debug_read32`: read the counter (`c0` is the
value returned), write the one-byte trigger code (0x00 for CORE at
addr 0, 0x04 for DATA at addr 4) to the sync register, busy-poll the
counter until it differs from `c0`, then read the latched backing
register (`latched` is the value returned) and apply the same
counter-delta check as the write path, storing `c0`. -/
def riscv_debug_read32 (csr : CsrMap) (c0 : Nat) (stream : Nat → Nat)
    (latched last addr fuel : Nat) : DebugReadOutcome :=
  if addr = 0 ∨ addr = 4 then
    match pollCounter stream (c0 % 2 ^ 32) fuel 0 with
    | none => .stalled
    | some k =>
      .done { value := latched % 2 ^ 32
              warnings := if sub32 c0 last ≠ 1 then 1 else 0
              storedCounter := c0 % 2 ^ 32
              pollIndex := k
              busOps := riscv_debug_counter_ops csr ++
                [Tx.write8 csr.sync (if addr = 0 then 0x00 else 0x04)] ++
                (List.range (k + 1)).map (fun _ => Tx.read32 csr.counter) ++
                [Tx.read32 (if addr = 0 then csr.core else csr.data)] }
  else .badReg

/-- A successful poll exits at the first read that differs from `c0`. -/
theorem pollCounter_some (stream : Nat → Nat) (c0 : Nat) :
    ∀ fuel k j, pollCounter stream c0 fuel k = some j →
      stream j % 2 ^ 32 ≠ c0 ∧ k ≤ j ∧
        ∀ i, k ≤ i → i < j → stream i % 2 ^ 32 = c0 := by
  intro fuel
  induction fuel with
  | zero => intro k j h; simp [pollCounter] at h
  | succ fuel ih =>
    intro k j h
    unfold pollCounter at h
    by_cases hk : stream k % 2 ^ 32 = c0
    · rw [if_pos hk] at h
      obtain ⟨h1, h2, h3⟩ := ih (k + 1) j h
      refine ⟨h1, by omega, ?_⟩
      intro i hki hij
      rcases Nat.eq_or_lt_of_le hki with heq | hlt
      · exact heq ▸ hk
      · exact h3 i hlt hij
    · rw [if_neg hk] at h
      obtain rfl : k = j := by simpa using h
      exact ⟨hk, le_refl k, fun i h1 h2 => absurd (lt_of_le_of_lt h1 h2)
        (lt_irrefl k)⟩

/-- A poll against a counter that never changes never exits. -/
theorem pollCounter_const (stream : Nat → Nat) (c0 : Nat)
    (hconst : ∀ k, stream k % 2 ^ 32 = c0) :
    ∀ fuel k, pollCounter stream c0 fuel k = none := by
  intro fuel
  induction fuel with
  | zero => intro k; rfl
  | succ fuel ih =>
    intro k
    unfold pollCounter
    rw [if_pos (hconst k)]
    exact ih (k + 1)

/-- C6: a debug read triggers the latch by writing the fixed code 0x00
(CORE) or 0x04 (DATA) to the sync register after the initial counter
read, busy-polls the counter and completes only when some poll read
differs from the initial counter value — against a backend whose counter
never changes it never completes, whatever the fuel — and on completion
returns the latched backing-register value and applies the counter-delta
drop check, storing the pre-trigger counter. -/
theorem riscv_debug_read32_spec (csr : CsrMap) (c0 : Nat)
    (stream : Nat → Nat) (latched last addr fuel : Nat) :
    (∀ r, riscv_debug_read32 csr c0 stream latched last addr fuel = .done r →
      (addr = 0 ∨ addr = 4) ∧
      stream r.pollIndex % 2 ^ 32 ≠ c0 % 2 ^ 32 ∧
      (∀ j, j < r.pollIndex → stream j % 2 ^ 32 = c0 % 2 ^ 32) ∧
      r.value = latched % 2 ^ 32 ∧
      r.warnings = (if sub32 c0 last ≠ 1 then 1 else 0) ∧
      r.storedCounter = c0 % 2 ^ 32 ∧
      r.busOps = [Tx.read32 csr.counter,
          Tx.write8 csr.sync (if addr = 0 then 0x00 else 0x04)] ++
        (List.range (r.pollIndex + 1)).map (fun _ => Tx.read32 csr.counter) ++
        [Tx.read32 (if addr = 0 then csr.core else csr.data)]) ∧
    ((∀ k, stream k % 2 ^ 32 = c0 % 2 ^ 32) → (addr = 0 ∨ addr = 4) →
      riscv_debug_read32 csr c0 stream latched last addr fuel = .stalled) := by
  constructor
  · intro r hr
    unfold riscv_debug_read32 at hr
    by_cases ha : addr = 0 ∨ addr = 4
    · rw [if_pos ha] at hr
      cases hpoll : pollCounter stream (c0 % 2 ^ 32) fuel 0 with
      | none => rw [hpoll] at hr; exact absurd hr (by simp)
      | some k =>
        rw [hpoll] at hr
        obtain ⟨hne, _, hbefore⟩ := pollCounter_some stream (c0 % 2 ^ 32)
          fuel 0 k hpoll
        obtain rfl : DebugReadResult.mk (latched % 2 ^ 32)
            (if sub32 c0 last ≠ 1 then 1 else 0) (c0 % 2 ^ 32) k
            (riscv_debug_counter_ops csr ++
              [Tx.write8 csr.sync (if addr = 0 then 0x00 else 0x04)] ++
              (List.range (k + 1)).map (fun _ => Tx.read32 csr.counter) ++
              [Tx.read32 (if addr = 0 then csr.core else csr.data)]) = r := by
          simpa using hr
        exact ⟨ha, hne, fun j hj => hbefore j (Nat.zero_le j) hj, rfl, rfl,
          rfl, by simp [riscv_debug_counter_ops]⟩
    · rw [if_neg ha] at hr
      exact absurd hr (by simp)
  · intro hconst ha
    unfold riscv_debug_read32
    rw [if_pos ha, pollCounter_const stream (c0 % 2 ^ 32) hconst fuel 0]

/-- Witness for `riscv_debug_read32_spec`: a constant counter stalls the
read for any fuel; a counter that changes immediately completes with the
latched value and no warning. -/
theorem riscv_debug_read32_spec_witness :
    riscv_debug_read32 ⟨1, 2, 3, 4⟩ 10 (fun _ => 10) 99 9 0 5 = .stalled ∧
    (11 : Nat) % 2 ^ 32 ≠ 10 % 2 ^ 32 ∧ (99 : Nat) % 2 ^ 32 = 99 % 2 ^ 32 :=
  ⟨(riscv_debug_read32_spec ⟨1, 2, 3, 4⟩ 10 (fun _ => 10) 99 9 0 5).2
      (fun _ => rfl) (Or.inl rfl),
    ((riscv_debug_read32_spec ⟨1, 2, 3, 4⟩ 10 (fun _ => 11) 99 9 0 5).1
        { value := 99, warnings := 0, storedCounter := 10, pollIndex := 0,
          busOps := [Tx.read32 1, Tx.write8 4 0x00, Tx.read32 1, Tx.read32 2] }
        (by decide)).2.1,
    ((riscv_debug_read32_spec ⟨1, 2, 3, 4⟩ 10 (fun _ => 11) 99 9 0 5).1
        { value := 99, warnings := 0, storedCounter := 10, pollIndex := 0,
          busOps := [Tx.read32 1, Tx.write8 4 0x00, Tx.read32 1, Tx.read32 2] }
        (by decide)).2.2.2.1⟩

/-! Relay server: the TCP request loop of `main`. -/

/-- A relay request as decoded from the fixed 10-byte `vexriscv_req`
record: operation byte (0 read / 1 write), size byte (0/1/2 for
8/16/32-bit), 32-bit address and 32-bit data. -/
structure VrvReq where
  readwrite : Nat
  size : Nat
  address : Nat
  data : Nat
  deriving DecidableEq, Repr

/-- Where one relay request was routed. -/
inductive RelayAction
  | debugWrite32 (reg value : Nat)
  | debugRead32 (reg : Nat)
  | wbWrite (width addr value : Nat)
  | wbRead (width addr : Nat)
  deriving DecidableEq, Repr

/-- Outcome of dispatching one well-formed 10-byte request: the bus call
made (`none` when the request was logged and dropped), whether the
4-byte reply write was performed, and its value (`none` models a reply
drawn from the uninitialised `resp` variable). -/
structure RelayOutcome where
  action : Option RelayAction
  reply : Bool
  replyVal : Option Nat
  deriving DecidableEq, Repr

/-- Embedding of the dispatch of one 10-byte request in `main`:
addresses in `[0xf00f0000, 0xf00f0008)` are translated by subtracting
the window base and routed to the debug bridge (32-bit only, others
logged and dropped); all other addresses go to the register adapter at
the requested width; the 4-byte reply is written whenever the operation
byte is `VRV_RW_READ`.  `adapterVal` is the value a register-adapter
read returns and `debugVal` the value a debug-bridge read returns. -/
def relay_dispatch (req : VrvReq) (adapterVal debugVal : Nat) : RelayOutcome :=
  let addr := req.address % 2 ^ 32
  let ar : Option RelayAction × Option Nat :=
    if 0xf00f0000 ≤ addr ∧ addr < 0xf00f0008 then
      let reg := addr - 0xf00f0000
      if req.readwrite = 1 then
        (if req.size = 2 then
            some (.debugWrite32 reg (req.data % 2 ^ 32))
          else none, none)
      else if req.readwrite = 0 then
        if req.size = 2 then
          (some (.debugRead32 reg), some (debugVal % 2 ^ 32))
        else (none, none)
      else (none, none)
    else
      if req.readwrite = 1 then
        (if req.size = 0 then some (.wbWrite 8 addr (req.data % 2 ^ 8))
          else if req.size = 1 then some (.wbWrite 16 addr (req.data % 2 ^ 16))
          else if req.size = 2 then some (.wbWrite 32 addr (req.data % 2 ^ 32))
          else none, none)
      else if req.readwrite = 0 then
        if req.size = 0 then (some (.wbRead 8 addr), some (adapterVal % 2 ^ 8))
        else if req.size = 1 then
          (some (.wbRead 16 addr), some (adapterVal % 2 ^ 16))
        else if req.size = 2 then
          (some (.wbRead 32 addr), some (adapterVal % 2 ^ 32))
        else (none, none)
      else (none, none)
  { action := ar.1, reply := req.readwrite = 0, replyVal := ar.2 }

/-- Result of one iteration of the per-session loop: whether the session
stays open and what, if anything, was dispatched. -/
structure StepResult where
  sessionOpen : Bool
  outcome : Option RelayOutcome
  deriving DecidableEq, Repr

/-- Embedding of one iteration of the per-session loop in `main`: a
zero-length read shuts the session down; a byte count other than 10 is
logged and ignored; a 10-byte record is dispatched. -/
def relay_session_step (n : Nat) (req : VrvReq) (adapterVal debugVal : Nat) :
    StepResult :=
  if n = 0 then { sessionOpen := false, outcome := none }
  else if n ≠ 10 then { sessionOpen := true, outcome := none }
  else { sessionOpen := true,
         outcome := some (relay_dispatch req adapterVal debugVal) }

/-- Run the per-session loop over a list of incoming reads (byte count,
decoded record, oracle read values), stopping when the session closes. -/
def relay_session_run :
    List (Nat × VrvReq × Nat × Nat) → List StepResult
  | [] => []
  | (n, req, a, d) :: rest =>
    let s := relay_session_step n req a d
    if s.sessionOpen then s :: relay_session_run rest else [s]

/-- C7 (amended): requests addressed in the 8-byte debug window are
translated by subtracting the window base and routed to the debug bridge
with only 32-bit width accepted — narrower requests to this range are
logged and make no bus transaction, though a narrow read still gets the
4-byte reply with indeterminate content; all other addresses route to
the register adapter at the requested width; the reply is written
exactly for read requests and carries the 32-bit result, zero-extended
for sub-32-bit widths. -/
theorem relay_dispatch_spec (op sz a d av dv : Nat) :
    ((relay_dispatch ⟨op, sz, a, d⟩ av dv).reply = true ↔ op = 0) ∧
    (0xf00f0000 ≤ a % 2 ^ 32 → a % 2 ^ 32 < 0xf00f0008 →
      (op = 1 → sz = 2 →
        relay_dispatch ⟨op, sz, a, d⟩ av dv =
          { action := some
              (.debugWrite32 (a % 2 ^ 32 - 0xf00f0000) (d % 2 ^ 32)),
            reply := false, replyVal := none }) ∧
      (op = 0 → sz = 2 →
        relay_dispatch ⟨op, sz, a, d⟩ av dv =
          { action := some (.debugRead32 (a % 2 ^ 32 - 0xf00f0000)),
            reply := true, replyVal := some (dv % 2 ^ 32) }) ∧
      (op ≤ 1 → sz < 2 →
        (relay_dispatch ⟨op, sz, a, d⟩ av dv).action = none ∧
        (relay_dispatch ⟨op, sz, a, d⟩ av dv).replyVal = none)) ∧
    (¬ (0xf00f0000 ≤ a % 2 ^ 32 ∧ a % 2 ^ 32 < 0xf00f0008) →
      (op = 1 →
        (sz = 0 → relay_dispatch ⟨op, sz, a, d⟩ av dv =
          { action := some (.wbWrite 8 (a % 2 ^ 32) (d % 2 ^ 8)),
            reply := false, replyVal := none }) ∧
        (sz = 1 → relay_dispatch ⟨op, sz, a, d⟩ av dv =
          { action := some (.wbWrite 16 (a % 2 ^ 32) (d % 2 ^ 16)),
            reply := false, replyVal := none }) ∧
        (sz = 2 → relay_dispatch ⟨op, sz, a, d⟩ av dv =
          { action := some (.wbWrite 32 (a % 2 ^ 32) (d % 2 ^ 32)),
            reply := false, replyVal := none })) ∧
      (op = 0 →
        (sz = 0 → relay_dispatch ⟨op, sz, a, d⟩ av dv =
          { action := some (.wbRead 8 (a % 2 ^ 32)),
            reply := true, replyVal := some (av % 2 ^ 8) }) ∧
        (sz = 1 → relay_dispatch ⟨op, sz, a, d⟩ av dv =
          { action := some (.wbRead 16 (a % 2 ^ 32)),
            reply := true, replyVal := some (av % 2 ^ 16) }) ∧
        (sz = 2 → relay_dispatch ⟨op, sz, a, d⟩ av dv =
          { action := some (.wbRead 32 (a % 2 ^ 32)),
            reply := true, replyVal := some (av % 2 ^ 32) }))) := by
  refine ⟨?_, ?_, ?_⟩
  · simp [relay_dispatch]
  · intro h1 h2
    have hc : 0xf00f0000 ≤ a % 4294967296 ∧ a % 4294967296 < 0xf00f0008 :=
      by constructor <;> omega
    refine ⟨?_, ?_, ?_⟩
    · rintro rfl rfl
      simp [relay_dispatch, hc]
    · rintro rfl rfl
      simp [relay_dispatch, hc]
    · intro hop hsz
      interval_cases op <;> interval_cases sz <;>
        simp [relay_dispatch, hc]
  · intro hout
    have hc : ¬ (0xf00f0000 ≤ a % 4294967296 ∧ a % 4294967296 < 0xf00f0008) :=
      by omega
    constructor
    · rintro rfl
      refine ⟨?_, ?_, ?_⟩ <;> rintro rfl <;> simp [relay_dispatch, hc]
    · rintro rfl
      refine ⟨?_, ?_, ?_⟩ <;> rintro rfl <;> simp [relay_dispatch, hc]

/-- Witness for `relay_dispatch_spec`: a 32-bit read at window base + 4
routes to the debug bridge DATA register and replies with the bridge
value. -/
theorem relay_dispatch_spec_witness :
    relay_dispatch ⟨0, 2, 0xf00f0004, 0⟩ 0 77 =
      { action := some (.debugRead32 4), reply := true,
        replyVal := some 77 } :=
  ((relay_dispatch_spec 0 2 0xf00f0004 0 0 77).2.1 (by decide)
    (by decide)).2.1 rfl rfl

/-- C7 counterexample: an 8-bit read request addressed inside the debug
window is logged and makes no bus transaction, but the code still writes
the 4-byte reply (from the uninitialised `resp`), where the claim says
such a request is dropped without a reply. -/
theorem relay_narrow_debug_read_replies :
    (relay_dispatch ⟨0, 0, 0xf00f0000, 0⟩ 5 7).action = none ∧
    (relay_dispatch ⟨0, 0, 0xf00f0000, 0⟩ 5 7).reply = true := by decide

/-- C8: a zero-length read closes the session; a wrong non-zero byte
count is ignored — no dispatch, no reply, session stays open — and a
subsequent valid 10-byte request on the same session is processed
normally. -/
theorem relay_session_step_spec (n : Nat) (req junk : VrvReq)
    (a d a2 d2 : Nat) :
    relay_session_step 0 req a d =
      { sessionOpen := false, outcome := none } ∧
    (n ≠ 0 → n ≠ 10 →
      relay_session_step n req a d =
        { sessionOpen := true, outcome := none }) ∧
    (n ≠ 0 → n ≠ 10 →
      relay_session_run [(n, junk, a, d), (10, req, a2, d2)] =
        [{ sessionOpen := true, outcome := none },
         { sessionOpen := true,
           outcome := some (relay_dispatch req a2 d2) }]) := by
  refine ⟨rfl, ?_, ?_⟩
  · intro h0 h10
    simp [relay_session_step, h0, h10]
  · intro h0 h10
    simp [relay_session_run, relay_session_step, h0, h10]

/-- Witness for `relay_session_step_spec`: a 7-byte request is ignored
and a following valid 10-byte request still succeeds. -/
theorem relay_session_step_spec_witness :
    relay_session_run
        [(7, ⟨0, 0, 0, 0⟩, 0, 0), (10, ⟨1, 2, 0x10000000, 0x12345678⟩, 0, 0)] =
      [{ sessionOpen := true, outcome := none },
       { sessionOpen := true,
         outcome := some (relay_dispatch ⟨1, 2, 0x10000000, 0x12345678⟩ 0 0) }] :=
  (relay_session_step_spec 7 ⟨1, 2, 0x10000000, 0x12345678⟩ ⟨0, 0, 0, 0⟩
    0 0 0 0).2.2 (by decide) (by decide)

end WishboneUtils
